import Mathlib

/-!
# Verification of `ssh.py` (wyman-lol/utils)

Shallow embedding of the `SSH` class from `src/ssh.py` and of the behaviour of
its external collaborator (the paramiko SSH library) that the wrapper's
observable behaviour depends on.

Modelling conventions:
* Bytes are `Nat` (0..255), byte strings are `List Nat`; decoded text is the
  list of Unicode code points (`List Nat`).
* Python exceptions are the error side of `Except`.
* The paramiko transport is a record with an `active` flag (paramiko's
  `Transport.active`); an unhealthy transport whose `close()` itself raises is
  modelled by the `closeFault` field.
* The remote side (network, remote processes, remote file system) is passed
  explicitly as state, since the Python code reaches it only through paramiko.
-/

set_option autoImplicit false

namespace SSHSpec

/-- Errors surfaced by operations on an established session.  They stand for
the concrete Python exceptions named in the comments. -/
inductive SSHErr where
  /-- paramiko `SSHException ("SSH session not active")`, raised by
  `Transport.open_session` / `open_channel` when the transport is closed,
  before any network traffic. -/
  | notConnected
  /-- `socket.timeout` raised while draining the command's stdout after the
  channel timeout elapsed. -/
  | timeout
  /-- `UnicodeDecodeError` from `bytes.decode('utf-8')` (strict mode). -/
  | decodeError
  /-- I/O failure during `sftp.put` / `sftp.get` (e.g. missing local file). -/
  | transferError
  /-- A failure raised from inside `Transport.close()` on an unhealthy
  transport. -/
  | closeError
  deriving DecidableEq, Repr

/-- Log line used by `__del__` when `transport.close()` raised. -/
def SSHErr.msg : SSHErr → String
  | .notConnected => "SSH session not active"
  | .timeout => "timed out"
  | .decodeError => "invalid utf-8"
  | .transferError => "transfer failed"
  | .closeError => "close failed"

/-- Errors aborting construction: the paramiko exceptions escaping
`SSH.connect` (socket errors from `Transport((host, port))`, auth /
negotiation failures from `transport.connect`). -/
inductive ConnectErr where
  | unreachable
  | authFailed
  deriving DecidableEq, Repr

/-- Model of a paramiko `Transport` object, as far as the wrapper observes it:
whether the session is active, plus a health field describing whether its
`close()` raises. -/
structure Transport where
  active : Bool
  closeFault : Option SSHErr
  deriving DecidableEq, Repr

/-- paramiko `Transport.close()`: on a healthy transport it deactivates the
session (idempotently — closing an already closed healthy transport succeeds);
on an unhealthy transport it raises. -/
def Transport.close (t : Transport) : Except SSHErr Transport :=
  match t.closeFault with
  | some e => .error e
  | none => .ok { t with active := false }

/-- A `logging.Handler` (the wrapper only ever attaches
`logging.StreamHandler()` instances, carrying a level). -/
structure Handler where
  level : Nat
  deriving DecidableEq, Repr

/-- A `logging.Logger`: a level and its list of attached handlers. -/
structure Logger where
  level : Nat
  handlers : List Handler
  deriving DecidableEq, Repr

/-- `logging.DEBUG` -/
def DEBUG : Nat := 10

/-- The process-wide `logging` registry: named loggers returned by
`logging.getLogger`.  An association list; the first binding of a name wins. -/
abbrev LogRegistry := List (String × Logger)

/-- Look a named logger up in the registry. -/
def lookupLogger : LogRegistry → String → Option Logger
  | [], _ => none
  | (n, l) :: rest, name => if n = name then some l else lookupLogger rest name

/-- Store a (mutated) named logger back into the registry. -/
def setLogger (reg : LogRegistry) (name : String) (l : Logger) : LogRegistry :=
  (name, l) :: reg

/-- `logging.getLogger(name)`: returns the existing process-wide logger of
that name, or registers a fresh one (no handlers) first. -/
def getLogger (reg : LogRegistry) (name : String) : Logger × LogRegistry :=
  match lookupLogger reg name with
  | some l => (l, reg)
  | none =>
    let l : Logger := { level := 0, handlers := [] }
    (l, setLogger reg name l)

/-- The module's `__name__`, the name under which `SSH.get_logger` registers
its default logger. -/
def moduleName : String := "ssh"

/-- Number of handlers currently attached to the module's default logger. -/
def defaultHandlerCount (reg : LogRegistry) : Nat :=
  match lookupLogger reg moduleName with
  | some l => l.handlers.length
  | none => 0

/-- The state of one remote process spawned by `exec_command`: the bytes it
writes to stdout and stderr, its exit status, and how long it runs (used
against the channel timeout). -/
structure RemoteProc where
  stdoutBytes : List Nat
  stderrBytes : List Nat
  exitStatus : Nat
  runtime : Nat
  deriving DecidableEq, Repr

/-- The remote host: what process each command line spawns. -/
structure RemoteHost where
  run : String → RemoteProc

/-- `h` with the stderr stream and exit status of the process for command `c`
replaced (its stdout and runtime unchanged). -/
def RemoteHost.withStderrExit (h : RemoteHost) (c : String) (eb : List Nat)
    (code : Nat) : RemoteHost where
  run := fun cmd =>
    if cmd = c then
      { h.run cmd with stderrBytes := eb, exitStatus := code }
    else h.run cmd

/-- paramiko `ChannelFile.read()` on the stdout stream of `p`, with the
channel timeout passed to `exec_command`: if the remote command outlives the
timeout, `socket.timeout` is raised; otherwise the whole stream is drained. -/
def chanRead (p : RemoteProc) (timeout : Option Nat) : Except SSHErr (List Nat) :=
  match timeout with
  | some t => if t < p.runtime then .error .timeout else .ok p.stdoutBytes
  | none => .ok p.stdoutBytes

/-- Strict UTF-8 decoding of a byte string to its code points, exactly as
Python's `bytes.decode('utf-8')` (errors='strict'): rejects stray
continuation bytes, overlong forms (C0/C1 leads, E0 A0-BF, F0 90-BF ranges),
surrogates (ED 80-9F second byte only) and code points above U+10FFFF
(leads F5-FF, F4 second byte 80-8F only), and truncated sequences. -/
def utf8Decode : List Nat → Option (List Nat)
  | [] => some []
  | b :: rest =>
    if b ≤ 0x7F then
      (utf8Decode rest).map fun cps => b :: cps
    else if 0xC2 ≤ b ∧ b ≤ 0xDF then
      match rest with
      | [] => none
      | b2 :: rest2 =>
        if 0x80 ≤ b2 ∧ b2 ≤ 0xBF then
          (utf8Decode rest2).map fun cps => ((b - 0xC0) * 64 + (b2 - 0x80)) :: cps
        else none
    else if 0xE0 ≤ b ∧ b ≤ 0xEF then
      match rest with
      | b2 :: b3 :: rest3 =>
        if (if b = 0xE0 then 0xA0 else 0x80) ≤ b2 ∧
            b2 ≤ (if b = 0xED then 0x9F else 0xBF) ∧
            0x80 ≤ b3 ∧ b3 ≤ 0xBF then
          (utf8Decode rest3).map fun cps =>
            ((b - 0xE0) * 4096 + (b2 - 0x80) * 64 + (b3 - 0x80)) :: cps
        else none
      | _ => none
    else if 0xF0 ≤ b ∧ b ≤ 0xF4 then
      match rest with
      | b2 :: b3 :: b4 :: rest4 =>
        if (if b = 0xF0 then 0x90 else 0x80) ≤ b2 ∧
            b2 ≤ (if b = 0xF4 then 0x8F else 0xBF) ∧
            0x80 ≤ b3 ∧ b3 ≤ 0xBF ∧ 0x80 ≤ b4 ∧ b4 ≤ 0xBF then
          (utf8Decode rest4).map fun cps =>
            ((b - 0xF0) * 262144 + (b2 - 0x80) * 4096 + (b3 - 0x80) * 64 +
              (b4 - 0x80)) :: cps
        else none
      | _ => none
    else none

/-- Render decoded code points back as a string (for the result log line). -/
def cpsStr (l : List Nat) : String :=
  String.mk (l.map Char.ofNat)

/-- A file system (local or remote) as a path-to-bytes association list; the
first binding of a path wins. -/
abbrev FileSys := List (String × List Nat)

/-- Read a file's bytes, `none` when the path does not exist. -/
def FileSys.read : FileSys → String → Option (List Nat)
  | [], _ => none
  | (p, c) :: rest, q => if p = q then some c else FileSys.read rest q

/-- Write (create or overwrite) a file. -/
def FileSys.write (fs : FileSys) (p : String) (c : List Nat) : FileSys :=
  (p, c) :: fs

/-- The network as seen by `SSH.connect`: the outcome of each call to
`paramiko.Transport((host, port))` (indexed by attempt number, so that a
hypothetical retry would be observable) and of `transport.connect(username,
password)`. -/
structure Net where
  mkTransport : String → Nat → Nat → Except ConnectErr Transport
  authenticate : Transport → String → String → Except ConnectErr Transport

/-- The `SSH` object of `ssh.py`.  `get_client` stores the very transport in
`client._transport`, so the client adds no state of its own and the session's
single transport is the `transport` field. -/
structure SSH where
  host : String
  port : Nat
  user : String
  password : String
  transport : Transport
  logger : Logger
  deriving DecidableEq, Repr

/-- `SSH.connect` (src/ssh.py:52-59): `transport =
paramiko.Transport((self.host, self.port)); transport.connect(username=...,
password=...); return transport`.  `attempt` numbers the call so a retry
would be distinguishable; the wrapper only ever makes attempt 0. -/
def SSH.connect (host : String) (port : Nat) (user password : String)
    (net : Net) (attempt : Nat) : Except ConnectErr Transport :=
  match net.mkTransport host port attempt with
  | .error e => .error e
  | .ok t => net.authenticate t user password

/-- `SSH.get_logger` (src/ssh.py:70-81): return the supplied logger, or build
the default one: fetch the process-wide module logger, set its level to
DEBUG, attach a fresh `StreamHandler` at DEBUG level.  Returns the logger and
the updated process-wide registry. -/
def SSH.get_logger (supplied : Option Logger) (reg : LogRegistry) :
    Logger × LogRegistry :=
  match supplied with
  | some l => (l, reg)
  | none =>
    let (l, reg1) := getLogger reg moduleName
    let l1 : Logger := { l with level := DEBUG }
    let stream_handler : Handler := { level := DEBUG }
    let l2 : Logger := { l1 with handlers := l1.handlers ++ [stream_handler] }
    (l2, setLogger reg1 moduleName l2)

/-- `SSH.__init__` (src/ssh.py:20-36): store the config, establish the
transport via a single `connect()` call, alias it into the client, build the
logger.  A `ConnectErr` escaping `connect` aborts construction: no `SSH`
value is produced. -/
def SSH.init (host : String) (port : Nat) (user password : String)
    (supplied : Option Logger) (net : Net) (reg : LogRegistry) :
    Except ConnectErr (SSH × LogRegistry) :=
  match SSH.connect host port user password net 0 with
  | .error e => .error e
  | .ok t =>
    let (lg, reg1) := SSH.get_logger supplied reg
    .ok ({ host := host, port := port, user := user, password := password,
           transport := t, logger := lg }, reg1)

/-- `SSH.__enter__` (src/ssh.py:38-40): returns `self`. -/
def SSH.enter (s : SSH) : SSH := s

/-- `SSH.__exit__` (src/ssh.py:42-44): its body is `del self`, which merely
unbinds the method-local name (the object is still referenced by the `with`
statement machinery), and it returns `None`.  Neither the object nor its
transport is touched. -/
def SSH.exit (s : SSH) (_excInfo : Option SSHErr) : SSH × Option Bool :=
  (s, none)

/-- `SSH.__del__` (src/ssh.py:46-50): `try: self.transport.close() except
Exception as e: self.logger.debug(e)`.  Returns the session after the close
attempt together with the debug log lines emitted; the `Except` layer records
whether the method itself raised (it never does: every exception from
`close` is caught and only logged). -/
def SSH.del (s : SSH) : Except SSHErr (SSH × List String) :=
  match s.transport.close with
  | .ok t1 => .ok ({ s with transport := t1 }, [])
  | .error e => .ok (s, [e.msg])

/-- `SSH.exec_command` (src/ssh.py:83-91): `self.client.exec_command(command,
timeout=timeout)`.  paramiko's `SSHClient.exec_command` opens a session
channel on `client._transport` (= the session's transport); `open_channel`
raises `SSHException` at once — before any network traffic — when the
transport is not active.  On an active transport the remote process's streams
are returned. -/
def SSH.exec_command (s : SSH) (h : RemoteHost) (command : String)
    (_timeout : Option Nat) : Except SSHErr RemoteProc :=
  if s.transport.active then .ok (h.run command) else .error .notConnected

/-- `SSH.exec` (src/ssh.py:93-104): log the command, run it, drain stdout,
decode it as strict UTF-8, log and return the text.  stdin and stderr are
bound to `_` and dropped; the exit status is never requested.  Returns the
result (decoded stdout code points, or the raised exception) paired with the
`logger.info` lines emitted. -/
def SSH.exec (s : SSH) (h : RemoteHost) (command : String)
    (timeout : Option Nat) : Except SSHErr (List Nat) × List String :=
  let log0 := ["execute command:" ++ command]
  match s.exec_command h command timeout with
  | .error e => (.error e, log0)
  | .ok proc =>
    match chanRead proc timeout with
    | .error e => (.error e, log0)
    | .ok bytes =>
      match utf8Decode bytes with
      | none => (.error .decodeError, log0)
      | some out => (.ok out, log0 ++ ["execute result:" ++ cpsStr out])

/-- `SSH.upload` (src/ssh.py:106-115): `sftp =
SFTPClient.from_transport(self.transport); sftp.put(local_path, remote_path);
return True`.  `from_transport` opens a channel, raising at once on an
inactive transport; `put` reads the local file (raising if it cannot) and
writes — overwriting — the remote path.  Returns the result and the remote
file system after the call. -/
def SSH.upload (s : SSH) (localFs remoteFs : FileSys)
    (local_path remote_path : String) : Except SSHErr Bool × FileSys :=
  if s.transport.active then
    match localFs.read local_path with
    | none => (.error .transferError, remoteFs)
    | some content => (.ok true, remoteFs.write remote_path content)
  else (.error .notConnected, remoteFs)

/-- `SSH.download` (src/ssh.py:117-126): symmetric to `upload`; `sftp.get`
reads the remote path and overwrites the local one.  Returns the result and
the local file system after the call. -/
def SSH.download (s : SSH) (remoteFs localFs : FileSys)
    (remote_path local_path : String) : Except SSHErr Bool × FileSys :=
  if s.transport.active then
    match remoteFs.read remote_path with
    | none => (.error .transferError, localFs)
    | some content => (.ok true, localFs.write local_path content)
  else (.error .notConnected, localFs)

/-- Python's `with` statement over an `SSH` session: run the body on
`__enter__`'s result; on an exception call `__exit__` with it and re-raise
unless the return value is truthy (then the exception is swallowed and the
block yields nothing). -/
def pyWith {α : Type} (s : SSH) (body : SSH → Except SSHErr α) :
    Except SSHErr (Option α) :=
  match body s.enter with
  | .ok a =>
    let (_, _r) := s.exit none
    .ok (some a)
  | .error e =>
    let (_, r) := s.exit (some e)
    if r.getD false then .ok none else .error e

/-! ## Concrete fixtures used by witnesses and counterexamples -/

/-- A session whose transport is open and healthy. -/
def sOpen : SSH :=
  { host := "localhost", port := 22, user := "root", password := "123456",
    transport := { active := true, closeFault := none },
    logger := { level := DEBUG, handlers := [{ level := DEBUG }] } }

/-- The same session after its transport was closed. -/
def sClosed : SSH :=
  { sOpen with transport := { active := false, closeFault := none } }

/-- A session over an unhealthy transport whose `close()` raises. -/
def sBad : SSH :=
  { sOpen with transport := { active := true, closeFault := some .closeError } }

/-- A remote host on which every command prints `"hi"` on stdout, `"e"` on
stderr, exits with status 3 and runs for 5 time units. -/
def hostC : RemoteHost :=
  ⟨fun _ => { stdoutBytes := [104, 105], stderrBytes := [101],
              exitStatus := 3, runtime := 5 }⟩

/-- A remote host whose commands emit the lone byte 0xFF — not valid UTF-8. -/
def hostBadUtf8 : RemoteHost :=
  ⟨fun _ => { stdoutBytes := [255], stderrBytes := [], exitStatus := 0,
              runtime := 0 }⟩

/-- A network on which every `Transport((host, port))` call fails. -/
def netFail : Net :=
  ⟨fun _ _ _ => .error .unreachable, fun t _ _ => .ok t⟩

/-- A network on which connecting and authenticating always succeed. -/
def netOk : Net :=
  ⟨fun _ _ _ => .ok { active := true, closeFault := none }, fun t _ _ => .ok t⟩

/-! ## Helper lemmas -/

/-- Unfolded form of `SSH.exec`. -/
theorem exec_eq (s : SSH) (h : RemoteHost) (c : String) (t : Option Nat) :
    SSH.exec s h c t =
      if s.transport.active then
        match chanRead (h.run c) t with
        | .error e => (.error e, ["execute command:" ++ c])
        | .ok bytes =>
          match utf8Decode bytes with
          | none => (.error .decodeError, ["execute command:" ++ c])
          | some out =>
            (.ok out, ["execute command:" ++ c, "execute result:" ++ cpsStr out])
      else (.error .notConnected, ["execute command:" ++ c]) := by
  by_cases hact : s.transport.active <;>
    simp [SSH.exec, SSH.exec_command, hact]

/-- Draining the stdout stream never truncates it: whenever `chanRead`
succeeds it returns the whole stream. -/
theorem chanRead_ok {p : RemoteProc} {t : Option Nat} {bytes : List Nat}
    (h : chanRead p t = .ok bytes) : bytes = p.stdoutBytes := by
  cases t with
  | none => simp [chanRead] at h; exact h.symm
  | some tv =>
    by_cases hrt : tv < p.runtime
    · simp [chanRead, hrt] at h
    · simp [chanRead, hrt] at h; exact h.symm

/-- Replacing a command's stderr stream and exit status leaves its stdout
stream and runtime untouched. -/
theorem withStderrExit_stdout (h : RemoteHost) (c : String) (eb : List Nat)
    (code : Nat) :
    ((h.withStderrExit c eb code).run c).stdoutBytes = (h.run c).stdoutBytes ∧
    ((h.withStderrExit c eb code).run c).runtime = (h.run c).runtime := by
  simp [RemoteHost.withStderrExit]

/-- `__del__` never raises, whatever the transport's state. -/
theorem del_ok (s : SSH) : ∃ r, SSH.del s = .ok r := by
  unfold SSH.del Transport.close
  cases hf : s.transport.closeFault <;> simp

/-- Reading a just-written path returns the written content, shadowing any
previous binding of that path. -/
theorem read_write (fs : FileSys) (p : String) (c : List Nat) :
    (fs.write p c).read p = some c := by
  simp [FileSys.write, FileSys.read]

/-! ## Claims -/

/-- C1: for every command string and timeout, a successful `exec` returns
exactly the remote process's standard-output stream, fully drained and
decoded as text; standard-error is not included in the return value and the
remote exit status is neither inspected nor surfaced (replacing both changes
nothing about the result). -/
theorem exec_returns_stdout_only (s : SSH) (h : RemoteHost) (c : String)
    (t : Option Nat) (out : List Nat)
    (hok : (SSH.exec s h c t).1 = .ok out) :
    utf8Decode (h.run c).stdoutBytes = some out ∧
    ∀ (eb : List Nat) (code : Nat),
      (SSH.exec s (h.withStderrExit c eb code) c t).1 = .ok out := by
  rw [exec_eq] at hok
  by_cases hact : s.transport.active
  · rw [if_pos hact] at hok
    rcases hcr : chanRead (h.run c) t with e | bytes
    · simp [hcr] at hok
    · rcases hdec : utf8Decode bytes with _ | cps
      · simp [hcr, hdec] at hok
      · simp [hcr, hdec] at hok
        subst hok
        have hbytes : bytes = (h.run c).stdoutBytes := chanRead_ok hcr
        subst hbytes
        refine ⟨hdec, fun eb code => ?_⟩
        rw [exec_eq, if_pos hact]
        have hstd := withStderrExit_stdout h c eb code
        have hcr2 : chanRead ((h.withStderrExit c eb code).run c) t =
            .ok (h.run c).stdoutBytes := by
          unfold chanRead
          cases t with
          | none => rw [hstd.1]
          | some tv => rw [hstd.1, hstd.2]; rw [chanRead] at hcr; exact hcr
        simp [hcr2, hdec]
  · rw [if_neg hact] at hok; simp at hok

/-- Witness for C1 at a concrete session and host: `exec` succeeds, its
result is the decoded stdout, and stays the same when stderr and the exit
status are replaced. -/
theorem exec_returns_stdout_only_witness :
    utf8Decode (RemoteProc.stdoutBytes (hostC.run "ls -al")) = some [104, 105] ∧
    (SSH.exec sOpen (hostC.withStderrExit "ls -al" [0] 7) "ls -al" none).1 =
      .ok [104, 105] :=
  ⟨(exec_returns_stdout_only sOpen hostC "ls -al" none [104, 105] rfl).1,
   (exec_returns_stdout_only sOpen hostC "ls -al" none [104, 105] rfl).2 [0] 7⟩

/-- C7: a command whose remote runtime exceeds the supplied timeout makes
`exec` fail with the timeout error rather than return. -/
theorem exec_timeout (s : SSH) (h : RemoteHost) (c : String) (t : Nat)
    (hact : s.transport.active = true) (hrt : t < (h.run c).runtime) :
    (SSH.exec s h c (some t)).1 = .error .timeout := by
  rw [exec_eq, if_pos hact]
  simp [chanRead, hrt]

/-- Witness for C7: a five-unit command under a one-unit timeout times out. -/
theorem exec_timeout_witness :
    (SSH.exec sOpen hostC "sleep 5" (some 1)).1 = .error .timeout :=
  exec_timeout sOpen hostC "sleep 5" 1 rfl (by decide)

/-- C9: `exec` decodes the drained stdout strictly as UTF-8: on an open
session, when the drain does not time out and the output bytes are not valid
UTF-8, the call fails with the decoding error instead of returning output. -/
theorem exec_decode_strict (s : SSH) (h : RemoteHost) (c : String)
    (t : Option Nat) (hact : s.transport.active = true)
    (hnt : chanRead (h.run c) t = .ok (h.run c).stdoutBytes)
    (hbad : utf8Decode (h.run c).stdoutBytes = none) :
    (SSH.exec s h c t).1 = .error .decodeError := by
  rw [exec_eq, if_pos hact]
  simp [hnt, hbad]

/-- Witness for C9: a remote output consisting of the lone byte 0xFF makes
`exec` fail with the decoding error. -/
theorem exec_decode_strict_witness :
    (SSH.exec sOpen hostBadUtf8 "cat blob" none).1 = .error .decodeError :=
  exec_decode_strict sOpen hostBadUtf8 "cat blob" none rfl rfl (by decide)

/-- C10: `__exit__` always returns `None`, so every exception raised inside
the `with` block propagates unmodified to the caller; `__exit__` never
suppresses an exception. -/
theorem exit_propagates (s : SSH) {α : Type} (body : SSH → Except SSHErr α)
    (e : SSHErr) (hb : body s = .error e) :
    (SSH.exit s (some e)).2 = none ∧ pyWith s body = .error e := by
  refine ⟨rfl, ?_⟩
  unfold pyWith SSH.enter
  rw [hb]
  simp [SSH.exit]

/-- Witness for C10: a body that raises the timeout error sees it re-raised
out of the `with` block. -/
theorem exit_propagates_witness :
    pyWith sOpen (fun _ => (.error .timeout : Except SSHErr (List Nat))) =
      .error .timeout :=
  (exit_propagates sOpen (fun _ => (.error .timeout : Except SSHErr (List Nat)))
    .timeout rfl).2

/-- C2: `__del__` (close/dispose) never raises, for every session regardless
of transport health: calling it twice in succession is safe, and when the
transport's own `close()` raises, the error ends up only in the debug log and
is never propagated. -/
theorem del_never_raises (s : SSH) :
    (∃ r, SSH.del s = .ok r) ∧
    (∀ s1 log1, SSH.del s = .ok (s1, log1) → ∃ r2, SSH.del s1 = .ok r2) ∧
    (∀ e, s.transport.closeFault = some e → SSH.del s = .ok (s, [e.msg])) := by
  refine ⟨del_ok s, fun s1 _ _ => del_ok s1, fun e hf => ?_⟩
  unfold SSH.del Transport.close
  rw [hf]

/-- Witness for C2 at a session whose transport's `close()` raises: the
error is logged, not propagated, and a second call is again safe. -/
theorem del_never_raises_witness :
    SSH.del sBad = .ok (sBad, [SSHErr.msg .closeError]) ∧
    (∃ r2, SSH.del sBad = .ok r2) :=
  ⟨(del_never_raises sBad).2.2 .closeError rfl,
   (del_never_raises sBad).2.1 sBad [SSHErr.msg .closeError]
     ((del_never_raises sBad).2.2 .closeError rfl)⟩

/-- C3: on a session whose transport is closed, `exec`, `upload` and
`download` all fail at once with the session-not-active error, touching
neither the remote host (the result does not depend on it) nor either file
system; and each of them can succeed only on an open transport. -/
theorem closed_ops_fail :
    (∀ (s : SSH) (h h2 : RemoteHost) (c : String) (t : Option Nat)
        (lfs rfs : FileSys) (lp rp : String),
      s.transport.active = false →
        (SSH.exec s h c t).1 = .error .notConnected ∧
        SSH.exec s h c t = SSH.exec s h2 c t ∧
        SSH.upload s lfs rfs lp rp = (.error .notConnected, rfs) ∧
        SSH.download s rfs lfs rp lp = (.error .notConnected, lfs)) ∧
    (∀ (s : SSH) (h : RemoteHost) (c : String) (t : Option Nat) (out : List Nat),
        (SSH.exec s h c t).1 = .ok out → s.transport.active = true) ∧
    (∀ (s : SSH) (lfs rfs : FileSys) (lp rp : String) (b : Bool),
        (SSH.upload s lfs rfs lp rp).1 = .ok b → s.transport.active = true) ∧
    (∀ (s : SSH) (lfs rfs : FileSys) (lp rp : String) (b : Bool),
        (SSH.download s rfs lfs rp lp).1 = .ok b → s.transport.active = true) := by
  refine ⟨fun s h h2 c t lfs rfs lp rp hcl => ?_, fun s h c t out hok => ?_,
    fun s lfs rfs lp rp b hok => ?_, fun s lfs rfs lp rp b hok => ?_⟩
  · rw [exec_eq, exec_eq, hcl]
    simp [SSH.upload, SSH.download, hcl]
  · by_cases hact : s.transport.active
    · exact hact
    · rw [exec_eq, if_neg hact] at hok; simp at hok
  · by_cases hact : s.transport.active
    · exact hact
    · simp [SSH.upload, hact] at hok
  · by_cases hact : s.transport.active
    · exact hact
    · simp [SSH.download, hact] at hok

/-- Witness for C3 at a concrete closed session: `exec` and `upload` fail
with the session-not-active error and the file system is untouched. -/
theorem closed_ops_fail_witness :
    (SSH.exec sClosed hostC "ls -al" none).1 = .error .notConnected ∧
    SSH.upload sClosed [] [] "a.txt" "b.txt" = (.error .notConnected, []) :=
  ⟨(closed_ops_fail.1 sClosed hostC hostC "ls -al" none [] [] "a.txt" "b.txt"
      rfl).1,
   (closed_ops_fail.1 sClosed hostC hostC "ls -al" none [] [] "a.txt" "b.txt"
      rfl).2.2.1⟩

/-- Counterexample to C4 as stated: the context-manager exit path
(`__exit__`) does not close the transport — after `SSH.exit` on a concrete
open session the transport is still active and the session is unchanged, so
the transport is not "closed on every exit path via deferred/guaranteed
cleanup"; it is closed only by the garbage-collection finalizer `__del__`. -/
theorem exit_does_not_close :
    ((SSH.exit sOpen none).1).transport.active = true ∧
    (SSH.exit sOpen none).1 = sOpen :=
  ⟨rfl, rfl⟩

/-- C4 as amended: every session owns exactly one transport, the one
produced by the single `connect` attempt of `__init__`; the context-manager
exit leaves the session (hence the transport) untouched, and the transport is
closed only by the finalizer `__del__`, which closes a healthy transport and
whose repetition is harmless (the second run is a no-op close). -/
theorem transport_lifecycle (s : SSH) (host : String) (port : Nat)
    (user pw : String) (supplied : Option Logger) (net : Net)
    (reg : LogRegistry) :
    SSH.exit s none = (s, none) ∧
    (s.transport.closeFault = none →
      SSH.del s =
        .ok ({ s with transport := { s.transport with active := false } }, []) ∧
      SSH.del { s with transport := { s.transport with active := false } } =
        .ok ({ s with transport := { s.transport with active := false } }, [])) ∧
    (∀ s1 reg1, SSH.init host port user pw supplied net reg = .ok (s1, reg1) →
      SSH.connect host port user pw net 0 = .ok s1.transport) := by
  refine ⟨rfl, fun hf => ?_, fun s1 reg1 hinit => ?_⟩
  · unfold SSH.del Transport.close
    simp [hf]
  · unfold SSH.init at hinit
    rcases hc : SSH.connect host port user pw net 0 with e | tr
    · rw [hc] at hinit; simp at hinit
    · rw [hc] at hinit
      simp at hinit
      rw [← hinit.1]

/-- Witness for C4 (amended) at a concrete open healthy session. -/
theorem transport_lifecycle_witness :
    SSH.exit sOpen none = (sOpen, none) ∧
    SSH.del sOpen =
      .ok ({ sOpen with
             transport := { sOpen.transport with active := false } }, []) :=
  ⟨(transport_lifecycle sOpen "localhost" 22 "root" "123456" none netOk []).1,
   ((transport_lifecycle sOpen "localhost" 22 "root" "123456" none netOk
      []).2.1 rfl).1⟩

/-- Counterexample to C5 as stated: starting from a fresh process-wide
logging registry, the first default-logger construction attaches one handler
but a second one leaves the shared module logger with two handlers — repeated
default-logger construction does accumulate duplicate handlers. -/
theorem default_logger_accumulates :
    (SSH.get_logger none []).1.handlers.length = 1 ∧
    (SSH.get_logger none (SSH.get_logger none []).2).1.handlers.length = 2 ∧
    ¬ (SSH.get_logger none (SSH.get_logger none []).2).1.handlers.length = 1 := by
  refine ⟨rfl, rfl, by decide⟩

/-- C5 as amended: every default-logger construction appends exactly one new
stream handler to the process-wide module logger, on top of whatever handlers
it already carries; only the first construction in a fresh process leaves
exactly one handler attached. -/
theorem default_logger_adds_handler (reg : LogRegistry) :
    (SSH.get_logger none reg).1.handlers.length = defaultHandlerCount reg + 1 ∧
    defaultHandlerCount (SSH.get_logger none reg).2 =
      defaultHandlerCount reg + 1 := by
  unfold SSH.get_logger getLogger defaultHandlerCount setLogger
  cases hl : lookupLogger reg moduleName <;> simp [lookupLogger, hl]

/-- C6: a failure of the single connect attempt aborts construction with
that very error — no `SSH` value escapes (`__init__` returns only the error),
no retry is made (the outcome depends only on attempt 0 of the network) — and
a constructed session holds exactly the transport the attempt produced. -/
theorem connect_failure_aborts (host : String) (port : Nat) (user pw : String)
    (supplied : Option Logger) (net net2 : Net) (reg : LogRegistry) :
    (∀ e, SSH.connect host port user pw net 0 = .error e →
      SSH.init host port user pw supplied net reg = .error e) ∧
    ((∀ a b, net.mkTransport a b 0 = net2.mkTransport a b 0) →
      net.authenticate = net2.authenticate →
      SSH.init host port user pw supplied net reg =
        SSH.init host port user pw supplied net2 reg) ∧
    (∀ s1 reg1, SSH.init host port user pw supplied net reg = .ok (s1, reg1) →
      SSH.connect host port user pw net 0 = .ok s1.transport) := by
  refine ⟨fun e hc => ?_, fun hmk hauth => ?_, fun s1 reg1 hinit => ?_⟩
  · unfold SSH.init
    rw [hc]
  · unfold SSH.init SSH.connect
    rw [hmk host port, hauth]
  · unfold SSH.init at hinit
    rcases hc : SSH.connect host port user pw net 0 with e | tr
    · rw [hc] at hinit; simp at hinit
    · rw [hc] at hinit
      simp at hinit
      rw [← hinit.1]

/-- Witness for C6 on a network where every transport construction fails:
`__init__` surfaces exactly that error. -/
theorem connect_failure_aborts_witness :
    SSH.init "localhost" 22 "root" "123456" none netFail [] =
      .error .unreachable :=
  (connect_failure_aborts "localhost" 22 "root" "123456" none netFail netFail
    []).1 .unreachable rfl

/-- C8: on an open session, uploading a readable local file `F` to `R`
succeeds and overwrites `R` with `F`'s bytes; downloading `R` back to `F2`
then succeeds and overwrites `F2`, and the downloaded file is byte-identical
to `F` — whatever was previously stored at `R` or `F2`. -/
theorem upload_download_roundtrip (s : SSH) (lfs rfs : FileSys)
    (F R F2 : String) (content : List Nat)
    (hact : s.transport.active = true)
    (hread : lfs.read F = some content) :
    SSH.upload s lfs rfs F R = (.ok true, rfs.write R content) ∧
    (rfs.write R content).read R = some content ∧
    SSH.download s (rfs.write R content) lfs R F2 =
      (.ok true, lfs.write F2 content) ∧
    (lfs.write F2 content).read F2 = some content := by
  unfold SSH.upload SSH.download
  rw [hact]
  simp [hread, read_write]

/-- Witness for C8 at concrete file systems with pre-existing files at both
destination paths (both get overwritten): the round trip reproduces the
source bytes. -/
theorem upload_download_roundtrip_witness :
    SSH.upload sOpen [("local.txt", [1, 2, 255])] [("r.bin", [9])]
        "local.txt" "r.bin" =
      (.ok true, FileSys.write [("r.bin", [9])] "r.bin" [1, 2, 255]) ∧
    FileSys.read
        (FileSys.write [("local.txt", [1, 2, 255])] "copy.txt" [1, 2, 255])
        "copy.txt" = some [1, 2, 255] :=
  ⟨(upload_download_roundtrip sOpen [("local.txt", [1, 2, 255])]
      [("r.bin", [9])] "local.txt" "r.bin" "copy.txt" [1, 2, 255] rfl
      (by decide)).1,
   (upload_download_roundtrip sOpen [("local.txt", [1, 2, 255])]
      [("r.bin", [9])] "local.txt" "r.bin" "copy.txt" [1, 2, 255] rfl
      (by decide)).2.2.2⟩

end SSHSpec
